import Mathlib

/-!
Verification development for the `logger` package (src/logger/logger.go), a thin
wrapper around the zap structured-logging engine.  The `zap` namespace below is a
shallow embedding of the parts of the external engine the wrapper relies on
(level parsing, configuration building, leveled emission, child loggers and field
constructors); the `logger` namespace is a direct translation of logger.go.

Conventions of the embedding:
- Go `error` values are `Option String` (`none` is nil, `some msg` carries the
  message).
- The file system is abstracted by an environment `Env : String → Bool` telling
  which paths can be opened as log sinks; the sentinel sinks "stdout" and
  "stderr" are always available.
- An emission call is modelled by the list of log entries it writes; the fatal
  paths additionally return the process-termination outcome.
-/

/-- Model of a Go `error` interface value: `none` is nil, `some msg` is a
non-nil error carrying its message. -/
abbrev GoError := Option String

/-- Process-termination outcome of a call that may exit the process. -/
inductive ExitOutcome where
  | exited (code : Nat)
  deriving DecidableEq, Repr

/-- Model of a Go `interface\x7b\x7d` (untyped) value, as passed to `zap.Any`. -/
inductive GoValue where
  | str (s : String)
  | int (i : Int)
  | float (f : Float)
  | bool (b : Bool)
  | nil
  deriving Repr

/-- Unicode simple lowercase mapping (Go `unicode.ToLower`) restricted to what
the ASCII-only level literals can observe.  Exactly the ASCII uppercase
letters and two further code points have an ASCII letter as their simple
lowercase mapping: U+0130 (LATIN CAPITAL LETTER I WITH DOT ABOVE, lowercased
to i) and U+212A (KELVIN SIGN, lowercased to k); they are mapped there.  Every
other character either is fixed by `unicode.ToLower` or is lowercased to a
non-ASCII character, and a string containing a non-ASCII character matches no
ASCII literal either way, so leaving those characters unchanged is faithful
for matching against the switch literals. -/
def goSimpleToLower (c : Char) : Char :=
  if c.toNat = 0x130 then 'i'
  else if c.toNat = 0x212A then 'k'
  else if 0x41 ≤ c.toNat ∧ c.toNat ≤ 0x5A then Char.ofNat (c.toNat + 0x20)
  else c

/-- Model of Go `bytes.ToLower` as applied to level text (a sequence of valid
runes): rune-wise Unicode simple lowercasing, via `goSimpleToLower`
(structurally recursive, so concrete instances evaluate). -/
def bytesToLower (s : String) : String :=
  String.mk (s.data.map goSimpleToLower)

namespace zap

/-- zapcore log levels, with the names used by zapcore. -/
inductive Level where
  | DebugLevel
  | InfoLevel
  | WarnLevel
  | ErrorLevel
  | DPanicLevel
  | PanicLevel
  | FatalLevel
  deriving DecidableEq, Repr

/-- Numeric severity of a zapcore level (Debug is -1, Fatal is 5). -/
def Level.toInt : Level → Int
  | .DebugLevel => -1
  | .InfoLevel => 0
  | .WarnLevel => 1
  | .ErrorLevel => 2
  | .DPanicLevel => 3
  | .PanicLevel => 4
  | .FatalLevel => 5

/-- Error returned by zapcore level parsing: `unrecognized level: <text>`. -/
inductive ParseLevelError where
  | unrecognizedLevel (text : String)
  deriving DecidableEq, Repr

/-- The exact string literals accepted by the switch in zapcore's
`Level.unmarshalText` (each lowercase name, its uppercase form, and the empty
string, which parses as info to make the zero value useful). -/
def levelSwitchLiterals : List String :=
  ["debug", "DEBUG", "info", "INFO", "", "warn", "WARN", "error", "ERROR",
   "dpanic", "DPANIC", "panic", "PANIC", "fatal", "FATAL"]

/-- The switch of zapcore's internal `Level.unmarshalText` helper: matches the
literal names (lower- and uppercase) and maps the empty string to info. -/
def Level.unmarshalTextCore (text : String) : Option Level :=
  if text = "debug" ∨ text = "DEBUG" then some .DebugLevel
  else if text = "info" ∨ text = "INFO" ∨ text = "" then some .InfoLevel
  else if text = "warn" ∨ text = "WARN" then some .WarnLevel
  else if text = "error" ∨ text = "ERROR" then some .ErrorLevel
  else if text = "dpanic" ∨ text = "DPANIC" then some .DPanicLevel
  else if text = "panic" ∨ text = "PANIC" then some .PanicLevel
  else if text = "fatal" ∨ text = "FATAL" then some .FatalLevel
  else none

/-- zapcore `Level.UnmarshalText` (also the behavior of
`zap.AtomicLevel.UnmarshalText`, which delegates to it): try the text verbatim,
then lowercased; fail with `unrecognized level` otherwise. -/
def Level.unmarshalText (text : String) : Except ParseLevelError Level :=
  match Level.unmarshalTextCore text with
  | some l => .ok l
  | none =>
    match Level.unmarshalTextCore (bytesToLower text) with
    | some l => .ok l
    | none => .error (.unrecognizedLevel text)

/-- The typed payload of a zap field descriptor.  `float64Val` keeps the raw
float (zap stores its bit pattern in the integer slot); `durationVal` keeps
nanoseconds; `skipVal` is the no-op field returned for a nil error. -/
inductive FieldValue where
  | stringVal (s : String)
  | int64Val (i : Int)
  | float64Val (f : Float)
  | boolVal (b : Bool)
  | errorVal (e : String)
  | anyVal (v : GoValue)
  | durationVal (nanos : Int)
  | skipVal
  deriving Repr

/-- A zap field descriptor: a key together with a typed value. -/
structure Field where
  key : String
  value : FieldValue
  deriving Repr

/-- A structured log entry as written by the engine: level, message, and the
fields attached to it (accumulated context first, then the per-call fields). -/
structure Entry where
  level : Level
  message : String
  fields : List Field
  deriving Repr

/-- Environment abstraction for the file system: which paths can be opened as
log sinks (covers both URL parsing and the OS-level open in zap's sink
registry). -/
abbrev Env := String → Bool

/-- Whether a sink path can be opened: the sentinel sinks "stdout" and "stderr"
are always available, any other path is asked of the environment. -/
def openableSink (env : Env) (path : String) : Bool :=
  path = "stdout" || path = "stderr" || env path

/-- zapcore `EncoderConfig`: presentation settings passed through to the
encoder.  Encoder-function choices are modelled by the name of the chosen
encoder. -/
structure EncoderConfig where
  timeKey : String
  levelKey : String
  nameKey : String
  callerKey : String
  functionKey : String
  messageKey : String
  stacktraceKey : String
  lineEnding : String
  encodeLevel : String
  encodeTime : String
  encodeDuration : String
  encodeCaller : String
  deriving DecidableEq, Repr

/-- zapcore `OmitKey`: omits the corresponding entry field. -/
def OmitKey : String := ""

/-- zapcore `DefaultLineEnding`. -/
def DefaultLineEnding : String := "\n"

/-- zap `Config`: the engine's native configuration structure (the fields set
by the wrapper). -/
structure Config where
  level : Level
  development : Bool
  encoding : String
  encoderConfig : EncoderConfig
  outputPaths : List String
  errorOutputPaths : List String
  deriving Repr

/-- The constructed zap logger: its fixed threshold and sinks plus the
accumulated context fields (`With` appends to the context). -/
structure Logger where
  level : Level
  encoding : String
  outputPaths : List String
  errorOutputPaths : List String
  context : List Field
  deriving Repr

/-- Errors from zap `Config.Build`: an unregistered encoding name, or a sink
path that cannot be opened. -/
inductive BuildError where
  | noEncoderRegistered (name : String)
  | openFailed (path : String)
  deriving DecidableEq, Repr

/-- zap `Config.Build`: builds the encoder first (only "json" and "console" are
registered by default), then opens the sinks; a fresh logger has no context
fields.  The `AddCallerSkip(1)` option passed by the wrapper only affects
caller annotation and is not observable in this model. -/
def Config.Build (env : Env) (cfg : Config) : Except BuildError Logger :=
  if cfg.encoding = "json" ∨ cfg.encoding = "console" then
    match cfg.outputPaths.find? (fun p => !openableSink env p) with
    | some p => .error (.openFailed p)
    | none =>
      .ok { level := cfg.level, encoding := cfg.encoding,
            outputPaths := cfg.outputPaths,
            errorOutputPaths := cfg.errorOutputPaths, context := [] }
  else
    .error (.noEncoderRegistered cfg.encoding)

/-- Whether the core enables emission at a level: at or above the configured
threshold. -/
def Logger.check (l : Logger) (lvl : Level) : Bool :=
  decide (l.level.toInt ≤ lvl.toInt)

/-- Write path of the engine: an enabled call writes one entry carrying the
accumulated context followed by the per-call fields; a disabled call writes
nothing. -/
def Logger.write (l : Logger) (lvl : Level) (msg : String) (fields : List Field) :
    List Entry :=
  if l.check lvl then [⟨lvl, msg, l.context ++ fields⟩] else []

/-- zap `Logger.Debug`. -/
def Logger.Debug (l : Logger) (msg : String) (fields : List Field) : List Entry :=
  l.write .DebugLevel msg fields

/-- zap `Logger.Info`. -/
def Logger.Info (l : Logger) (msg : String) (fields : List Field) : List Entry :=
  l.write .InfoLevel msg fields

/-- zap `Logger.Warn`. -/
def Logger.Warn (l : Logger) (msg : String) (fields : List Field) : List Entry :=
  l.write .WarnLevel msg fields

/-- zap `Logger.Error`. -/
def Logger.Error (l : Logger) (msg : String) (fields : List Field) : List Entry :=
  l.write .ErrorLevel msg fields

/-- zap `Logger.Fatal`: writes the entry (fatal is at or above every
configurable threshold) and then terminates the process with exit code 1. -/
def Logger.Fatal (l : Logger) (msg : String) (fields : List Field) :
    List Entry × ExitOutcome :=
  (l.write .FatalLevel msg fields, .exited 1)

/-- zap `Logger.With`: a child logger sharing the configuration, with the given
fields appended to the accumulated context; the receiver is not mutated. -/
def Logger.With (l : Logger) (fields : List Field) : Logger :=
  { l with context := l.context ++ fields }

/-- zap `Skip()`: a no-op field. -/
def Skip : Field := ⟨"", .skipVal⟩

/-- zap `NamedError`: nil errors become a no-op `Skip` field; non-nil errors
become an error-typed field under the given key. -/
def NamedError (key : String) (err : GoError) : Field :=
  match err with
  | none => Skip
  | some e => ⟨key, .errorVal e⟩

/-- zap `Error`: `NamedError` under the key "error". -/
def Error (err : GoError) : Field :=
  NamedError "error" err

/-- zap `Int64`. -/
def Int64 (key : String) (val : Int) : Field :=
  ⟨key, .int64Val val⟩

/-- zap `Duration`: a duration-typed field (rendered by the configured duration
encoder), carrying nanoseconds. -/
def Duration (key : String) (nanos : Int) : Field :=
  ⟨key, .durationVal nanos⟩

/-- zap `Float64`. -/
def Float64 (key : String) (val : Float) : Field :=
  ⟨key, .float64Val val⟩

/-- zap `Any`: a generic field for an untyped value. -/
def Any (key : String) (val : GoValue) : Field :=
  ⟨key, .anyVal val⟩

/-- zap `Int`: delegates to `Int64` after widening. -/
def Int (key : String) (val : Int) : Field :=
  Int64 key val

/-- zap `Bool`. -/
def Bool (key : String) (val : Bool) : Field :=
  ⟨key, .boolVal val⟩

/-- zap `String`. -/
def String (key : String) (val : String) : Field :=
  ⟨key, .stringVal val⟩

end zap

namespace logger

/-- The wrapper type: a facade embedding one zap logger (logger.go line 12). -/
structure Logger where
  zapLogger : zap.Logger
  deriving Repr

/-- LogConfig (logger.go line 17): level is one of debug/info/warn/error/fatal,
OutputPath is a file path or "stdout" for the console, Format is json or
console. -/
structure LogConfig where
  Level : String
  OutputPath : String
  Format : String
  deriving DecidableEq, Repr

/-- Error result of the constructors: either the level-validation failure
`invalid log level: <detail>` wrapping the parse error, or an engine
construction error propagated verbatim. -/
inductive NewError where
  | invalidLogLevel (detail : zap.ParseLevelError)
  | buildError (e : zap.BuildError)
  deriving DecidableEq, Repr

/-- Output translation of NewWithConfig (logger.go lines 42-47): the sentinel
"stdout" maps to the console sink, any other string is used verbatim as the
single output path. -/
def translateOutput (outputPath : String) : List String :=
  if outputPath = "stdout" then ["stdout"] else [outputPath]

/-- The fixed encoder configuration built by NewWithConfig
(logger.go lines 50-63). -/
def encoderConfig : zap.EncoderConfig :=
  { timeKey := "ts", levelKey := "level", nameKey := "logger",
    callerKey := "caller", functionKey := zap.OmitKey, messageKey := "msg",
    stacktraceKey := "stacktrace", lineEnding := zap.DefaultLineEnding,
    encodeLevel := "capital", encodeTime := "ISO8601",
    encodeDuration := "string", encodeCaller := "short" }

/-- NewWithConfig (logger.go lines 33-80): parse the level (failing with
`invalid log level`), translate the output path, assemble the zap
configuration and build the engine, wrapping it on success. -/
def NewWithConfig (env : zap.Env) (config : LogConfig) : Except NewError Logger :=
  match zap.Level.unmarshalText config.Level with
  | .error e => .error (.invalidLogLevel e)
  | .ok level =>
    let outputPaths := translateOutput config.OutputPath
    let zapConfig : zap.Config :=
      { level := level, development := false, encoding := config.Format,
        encoderConfig := encoderConfig, outputPaths := outputPaths,
        errorOutputPaths := ["stderr"] }
    match zapConfig.Build env with
    | .error e => .error (.buildError e)
    | .ok zapLogger => .ok ⟨zapLogger⟩

/-- New (logger.go lines 24-30): the default-configuration entry point. -/
def New (env : zap.Env) : Except NewError Logger :=
  NewWithConfig env
    { Level := "info", OutputPath := "stdout", Format := "console" }

/-- Logger.Debug (logger.go line 83): delegates to the engine. -/
def Logger.Debug (l : Logger) (msg : String) (fields : List zap.Field) :
    List zap.Entry :=
  l.zapLogger.Debug msg fields

/-- Logger.Info (logger.go line 88): delegates to the engine. -/
def Logger.Info (l : Logger) (msg : String) (fields : List zap.Field) :
    List zap.Entry :=
  l.zapLogger.Info msg fields

/-- Logger.Warn (logger.go line 93): delegates to the engine. -/
def Logger.Warn (l : Logger) (msg : String) (fields : List zap.Field) :
    List zap.Entry :=
  l.zapLogger.Warn msg fields

/-- Logger.Error (logger.go line 98): delegates to the engine. -/
def Logger.Error (l : Logger) (msg : String) (fields : List zap.Field) :
    List zap.Entry :=
  l.zapLogger.Error msg fields

/-- Logger.Fatal (logger.go line 103): delegates to the engine's fatal
emission, which terminates the process. -/
def Logger.Fatal (l : Logger) (msg : String) (fields : List zap.Field) :
    List zap.Entry × ExitOutcome :=
  l.zapLogger.Fatal msg fields

/-- Logger.Fatalf (logger.go lines 108-113): with a non-nil error, log the
format string at fatal severity with the error attached (zap's Fatal
terminates the process, so the trailing `os.Exit(1)` of the source is
unreachable on that branch); with a nil error, exit with code 1 without
logging. -/
def Logger.Fatalf (l : Logger) (format : String) (err : GoError) :
    List zap.Entry × ExitOutcome :=
  match err with
  | some e => l.zapLogger.Fatal format [zap.Error (some e)]
  | none => ([], .exited 1)

/-- Logger.WithFields (logger.go line 116): wraps a child engine carrying the
extra fields. -/
def Logger.WithFields (l : Logger) (fields : List zap.Field) : Logger :=
  ⟨l.zapLogger.With fields⟩

/-- NewLogger (logger.go line 154): wraps an existing engine. -/
def NewLogger (zapLogger : zap.Logger) : Logger :=
  ⟨zapLogger⟩

/-- Field helper Int64 (logger.go line 129). -/
def Int64 (key : String) (val : Int) : zap.Field :=
  zap.Int64 key val

/-- Field helper Duration (logger.go line 149): takes a float64 and delegates
to zap.Float64, not to zap.Duration. -/
def Duration (key : String) (val : Float) : zap.Field :=
  zap.Float64 key val

/-- Field helper Float64 (logger.go line 133). -/
def Float64 (key : String) (val : Float) : zap.Field :=
  zap.Float64 key val

/-- Field helper Any (logger.go line 145). -/
def Any (key : String) (val : GoValue) : zap.Field :=
  zap.Any key val

/-- Field helper Error (logger.go line 141). -/
def Error (err : GoError) : zap.Field :=
  zap.Error err

/-- Field helper Int (logger.go line 125). -/
def Int (key : String) (val : Int) : zap.Field :=
  zap.Int key val

/-- Field helper Bool (logger.go line 137). -/
def Bool (key : String) (val : Bool) : zap.Field :=
  zap.Bool key val

/-- Field helper String (logger.go line 121). -/
def String (key : String) (val : String) : zap.Field :=
  zap.String key val

end logger

/-- Environment in which every file path can be opened. -/
def envAllOpen : zap.Env := fun _ => true

/-- Environment in which no file path can be opened (only the sentinel console
sinks "stdout" and "stderr" are available). -/
def envNoneOpen : zap.Env := fun _ => false

/-- Modelled from the spec: the default configuration named by the spec
sentence "`New()` is equivalent to `NewWithConfig(\x7blevel: \"info\", output:
\"stdout\", format: \"console\"\x7d)`" (spec-side definition for the
refinement claim C4). -/
def defaultConfigSpec : logger.LogConfig :=
  { Level := "info", OutputPath := "stdout", Format := "console" }

/-- Every zapcore level has severity at most fatal (5); hence fatal-level
emission is enabled for every configurable threshold. -/
theorem levelToInt_le_five (l : zap.Level) : l.toInt ≤ 5 := by
  cases l <;> simp [zap.Level.toInt]

/-- A string outside the literal switch cases is rejected by the switch of
zapcore level parsing. -/
theorem unmarshalTextCore_eq_none (s : String)
    (h : s ∉ zap.levelSwitchLiterals) :
    zap.Level.unmarshalTextCore s = none := by
  simp only [zap.levelSwitchLiterals, List.mem_cons, List.not_mem_nil, or_false,
    not_or] at h
  obtain ⟨h1, h2, h3, h4, h5, h6, h7, h8, h9, h10, h11, h12, h13, h14, h15⟩ := h
  simp [zap.Level.unmarshalTextCore, h1, h2, h3, h4, h5, h6, h7, h8, h9, h10,
    h11, h12, h13, h14, h15]

/-- With a level string the engine parses, a registered encoding and openable
sinks, NewWithConfig succeeds and the constructed handle wraps a fresh engine
at the parsed threshold. -/
theorem newWithConfig_ok (env : zap.Env) (cfg : logger.LogConfig) (t : zap.Level)
    (ht : zap.Level.unmarshalText cfg.Level = .ok t)
    (hfmt : cfg.Format = "json" ∨ cfg.Format = "console")
    (hout : ∀ p ∈ logger.translateOutput cfg.OutputPath,
      zap.openableSink env p = true) :
    logger.NewWithConfig env cfg =
      .ok ⟨{ level := t, encoding := cfg.Format,
             outputPaths := logger.translateOutput cfg.OutputPath,
             errorOutputPaths := ["stderr"], context := [] }⟩ := by
  have hfind : (logger.translateOutput cfg.OutputPath).find?
      (fun p => !zap.openableSink env p) = none := by
    rw [List.find?_eq_none]
    intro p hp
    simp [hout p hp]
  simp only [logger.NewWithConfig, ht, zap.Config.Build, hfind, if_pos hfmt]

/-- C1 counterexample: the claim is false as stated — a configuration whose
severity string is "info" (a valid level) still fails construction when its
format is not a registered encoding ("xml"), or when its file output path
cannot be opened; success needs more than a valid severity string. -/
theorem newWithConfig_valid_level_counterexample :
    ("info" ∈ (["debug", "info", "warn", "error", "fatal"] : List String)) ∧
    logger.NewWithConfig envAllOpen
      { Level := "info", OutputPath := "stdout", Format := "xml" } =
      .error (.buildError (.noEncoderRegistered "xml")) ∧
    logger.NewWithConfig envNoneOpen
      { Level := "info", OutputPath := "/var/log/app.log", Format := "console" } =
      .error (.buildError (.openFailed "/var/log/app.log")) :=
  ⟨by decide, rfl, rfl⟩

/-- C1 (amended): for every configuration whose severity string is one of
debug/info/warn/error/fatal, whose format is a registered encoding (json or
console) and whose translated output sinks can be opened, NewWithConfig
succeeds and the handle honors the threshold: emission calls at a severity
below the parsed threshold produce no log entry, while calls at or above it
produce one. -/
theorem newWithConfig_valid_level_threshold (env : zap.Env)
    (cfg : logger.LogConfig)
    (hlvl : cfg.Level ∈ ["debug", "info", "warn", "error", "fatal"])
    (hfmt : cfg.Format = "json" ∨ cfg.Format = "console")
    (hout : ∀ p ∈ logger.translateOutput cfg.OutputPath,
      zap.openableSink env p = true) :
    ∃ (L : logger.Logger) (t : zap.Level),
      logger.NewWithConfig env cfg = .ok L ∧
      zap.Level.unmarshalText cfg.Level = .ok t ∧
      L.zapLogger.level = t ∧ L.zapLogger.context = [] ∧
      (∀ msg fields, L.Debug msg fields =
        L.zapLogger.write .DebugLevel msg fields) ∧
      (∀ msg fields, L.Info msg fields =
        L.zapLogger.write .InfoLevel msg fields) ∧
      (∀ msg fields, L.Warn msg fields =
        L.zapLogger.write .WarnLevel msg fields) ∧
      (∀ msg fields, L.Error msg fields =
        L.zapLogger.write .ErrorLevel msg fields) ∧
      (∀ lvl msg fields, lvl.toInt < t.toInt →
        L.zapLogger.write lvl msg fields = []) ∧
      (∀ lvl msg fields, t.toInt ≤ lvl.toInt →
        L.zapLogger.write lvl msg fields = [⟨lvl, msg, fields⟩]) := by
  have hparse : ∃ t, zap.Level.unmarshalText cfg.Level = .ok t := by
    simp only [List.mem_cons, List.not_mem_nil, or_false] at hlvl
    rcases hlvl with h | h | h | h | h <;> rw [h] <;> exact ⟨_, rfl⟩
  obtain ⟨t, ht⟩ := hparse
  refine ⟨_, t, newWithConfig_ok env cfg t ht hfmt hout, ht, rfl, rfl,
    fun _ _ => rfl, fun _ _ => rfl, fun _ _ => rfl, fun _ _ => rfl, ?_, ?_⟩
  · intro lvl msg fields hlt
    have hn : ¬ (t.toInt ≤ lvl.toInt) := by omega
    simp [zap.Logger.write, zap.Logger.check, hn]
  · intro lvl msg fields hle
    simp [zap.Logger.write, zap.Logger.check, hle]

/-- C1 witness: the amended theorem applied to the configuration
debug/stdout/console in an environment in which no file path opens. -/
theorem newWithConfig_valid_level_threshold_witness :
    ∃ (L : logger.Logger) (t : zap.Level),
      logger.NewWithConfig envNoneOpen
        { Level := "debug", OutputPath := "stdout", Format := "console" } =
        .ok L ∧
      zap.Level.unmarshalText "debug" = .ok t ∧
      L.zapLogger.level = t ∧ L.zapLogger.context = [] ∧
      (∀ msg fields, L.Debug msg fields =
        L.zapLogger.write .DebugLevel msg fields) ∧
      (∀ msg fields, L.Info msg fields =
        L.zapLogger.write .InfoLevel msg fields) ∧
      (∀ msg fields, L.Warn msg fields =
        L.zapLogger.write .WarnLevel msg fields) ∧
      (∀ msg fields, L.Error msg fields =
        L.zapLogger.write .ErrorLevel msg fields) ∧
      (∀ lvl msg fields, lvl.toInt < t.toInt →
        L.zapLogger.write lvl msg fields = []) ∧
      (∀ lvl msg fields, t.toInt ≤ lvl.toInt →
        L.zapLogger.write lvl msg fields = [⟨lvl, msg, fields⟩]) :=
  newWithConfig_valid_level_threshold envNoneOpen
    { Level := "debug", OutputPath := "stdout", Format := "console" }
    (by decide) (Or.inr rfl) (by decide)

/-- C2 counterexample: the claim is false as stated — "dpanic" is outside the
enumerated set debug/info/warn/error/fatal, yet NewWithConfig accepts it
(zapcore's level parser also recognizes dpanic, panic, uppercase forms and the
empty string) and returns a handle at the DPanic threshold. -/
theorem newWithConfig_invalid_level_counterexample :
    ("dpanic" ∉ (["debug", "info", "warn", "error", "fatal"] : List String)) ∧
    logger.NewWithConfig envAllOpen
      { Level := "dpanic", OutputPath := "stdout", Format := "console" } =
      .ok (logger.NewLogger
        { level := .DPanicLevel, encoding := "console",
          outputPaths := ["stdout"], errorOutputPaths := ["stderr"],
          context := [] }) :=
  ⟨by decide, rfl⟩

/-- C2 (amended): for every severity string that, neither verbatim nor after
Unicode lowercasing (Go `bytes.ToLower`), is one of the level literals
zapcore's parser recognizes (the lower- and uppercase forms of
debug/info/warn/error/dpanic/panic/fatal and the empty string), NewWithConfig
fails with an "invalid log level" validation error carrying the parse failure
detail and returns no handle. -/
theorem newWithConfig_invalid_level (env : zap.Env) (cfg : logger.LogConfig)
    (h1 : cfg.Level ∉ zap.levelSwitchLiterals)
    (h2 : bytesToLower cfg.Level ∉ zap.levelSwitchLiterals) :
    logger.NewWithConfig env cfg =
      .error (.invalidLogLevel (.unrecognizedLevel cfg.Level)) := by
  have ht : zap.Level.unmarshalText cfg.Level =
      .error (.unrecognizedLevel cfg.Level) := by
    unfold zap.Level.unmarshalText
    rw [unmarshalTextCore_eq_none _ h1, unmarshalTextCore_eq_none _ h2]
  simp only [logger.NewWithConfig, ht]

/-- C2 witness: the amended theorem applied to the severity string "verbose",
which no spelling of the recognized literals matches. -/
theorem newWithConfig_invalid_level_witness :
    logger.NewWithConfig envAllOpen
      { Level := "verbose", OutputPath := "stdout", Format := "console" } =
      .error (.invalidLogLevel (.unrecognizedLevel "verbose")) :=
  newWithConfig_invalid_level envAllOpen
    { Level := "verbose", OutputPath := "stdout", Format := "console" }
    (by decide) (by decide)

/-- C3: Fatalf with a non-nil error writes one entry at fatal severity whose
message is the format string and whose fields carry the error detail under the
key "error", and terminates the process with exit code 1; Fatalf with a nil
error terminates the process with exit code 1 without writing any entry. -/
theorem fatalf_spec (l : logger.Logger) (format : String) (e : String) :
    l.Fatalf format (some e) =
      ([⟨.FatalLevel, format, l.zapLogger.context ++ [⟨"error", .errorVal e⟩]⟩],
        .exited 1) ∧
    l.Fatalf format none = ([], .exited 1) := by
  constructor
  · have hc : l.zapLogger.check .FatalLevel = true := by
      simp only [zap.Logger.check, decide_eq_true_eq]
      exact levelToInt_le_five l.zapLogger.level
    simp [logger.Logger.Fatalf, zap.Logger.Fatal, zap.Logger.write,
      zap.Error, zap.NamedError, hc]
  · rfl

/-- C4: the no-argument entry point New is the same construction as
NewWithConfig on the configuration the spec names: level "info", output
"stdout", format "console". -/
theorem new_default_config (env : zap.Env) :
    logger.New env = logger.NewWithConfig env defaultConfigSpec :=
  rfl

/-- C5: the output translation maps the sentinel "stdout" to the console sink
(which every environment can open), maps any other non-empty string verbatim
to a single-element path list with no existence check (the translation is a
pure function of the string), and an unopenable file path fails only later, as
an engine construction error from Build. -/
theorem translateOutput_spec :
    logger.translateOutput "stdout" = ["stdout"] ∧
    (∀ env, zap.openableSink env "stdout" = true) ∧
    (∀ s, s ≠ "stdout" → s ≠ "" → logger.translateOutput s = [s]) ∧
    (∀ (env : zap.Env) (cfg : logger.LogConfig) (t : zap.Level),
      zap.Level.unmarshalText cfg.Level = .ok t →
      (cfg.Format = "json" ∨ cfg.Format = "console") →
      zap.openableSink env cfg.OutputPath = false →
      logger.NewWithConfig env cfg =
        .error (.buildError (.openFailed cfg.OutputPath))) := by
  refine ⟨rfl, fun env => rfl, fun s hs _ => by simp [logger.translateOutput, hs],
    fun env cfg t ht hfmt hopen => ?_⟩
  have hne : cfg.OutputPath ≠ "stdout" := by
    intro h
    rw [h] at hopen
    simp [zap.openableSink] at hopen
  have htr : logger.translateOutput cfg.OutputPath = [cfg.OutputPath] := by
    simp [logger.translateOutput, hne]
  simp [logger.NewWithConfig, ht, zap.Config.Build, htr, if_pos hfmt,
    List.find?, hopen]

/-- C5 witness: the engine-construction-failure conjunct applied to an
environment in which no file path opens and an explicit file path. -/
theorem translateOutput_spec_witness :
    logger.NewWithConfig envNoneOpen
      { Level := "warn", OutputPath := "/tmp/app.log", Format := "json" } =
      .error (.buildError (.openFailed "/tmp/app.log")) :=
  translateOutput_spec.2.2.2 envNoneOpen
    { Level := "warn", OutputPath := "/tmp/app.log", Format := "json" }
    .WarnLevel rfl (Or.inl rfl) (by decide)

/-- C6: WithFields returns a new handle whose engine carries the supplied
fields appended to the accumulated context, with the threshold and sinks
unchanged; every emission through the child includes those fields, while
emission through the original handle is exactly as before, without them. -/
theorem withFields_spec (l : logger.Logger) (fs : List zap.Field) :
    (l.WithFields fs).zapLogger.context = l.zapLogger.context ++ fs ∧
    (l.WithFields fs).zapLogger.level = l.zapLogger.level ∧
    (l.WithFields fs).zapLogger.encoding = l.zapLogger.encoding ∧
    (l.WithFields fs).zapLogger.outputPaths = l.zapLogger.outputPaths ∧
    (l.WithFields fs).zapLogger.errorOutputPaths =
      l.zapLogger.errorOutputPaths ∧
    (∀ lvl msg gs, (l.WithFields fs).zapLogger.write lvl msg gs =
      if l.zapLogger.check lvl then
        [⟨lvl, msg, l.zapLogger.context ++ fs ++ gs⟩] else []) ∧
    (∀ lvl msg gs, l.zapLogger.write lvl msg gs =
      if l.zapLogger.check lvl then
        [⟨lvl, msg, l.zapLogger.context ++ gs⟩] else []) ∧
    (∀ msg gs, (l.WithFields fs).Info msg gs =
      if l.zapLogger.check .InfoLevel then
        [⟨.InfoLevel, msg, l.zapLogger.context ++ fs ++ gs⟩] else []) ∧
    (∀ msg gs, l.Info msg gs =
      if l.zapLogger.check .InfoLevel then
        [⟨.InfoLevel, msg, l.zapLogger.context ++ gs⟩] else []) := by
  refine ⟨rfl, rfl, rfl, rfl, rfl, fun lvl msg gs => ?_, fun lvl msg gs => rfl,
    fun msg gs => ?_, fun msg gs => rfl⟩ <;>
    simp [logger.Logger.WithFields, logger.Logger.Info, zap.Logger.With,
      zap.Logger.Info, zap.Logger.write, zap.Logger.check, List.append_assoc]

/-- C7: each severity-tagged facade method forwards the message and fields
unchanged to the engine's matching method; the facade call and the direct
engine call are the same function application. -/
theorem facade_delegation_spec (l : logger.Logger) (msg : String)
    (fields : List zap.Field) :
    l.Debug msg fields = l.zapLogger.Debug msg fields ∧
    l.Info msg fields = l.zapLogger.Info msg fields ∧
    l.Warn msg fields = l.zapLogger.Warn msg fields ∧
    l.Error msg fields = l.zapLogger.Error msg fields :=
  ⟨rfl, rfl, rfl, rfl⟩

/-- C8: every free field constructor is a pure total function and produces the
key/value descriptor expected for its type: the given key (or "error" for the
error helper, which maps a nil error to the no-op Skip field) with its value
tagged by the matching type. -/
theorem field_constructors_spec (key s : String) (i : Int) (f : Float)
    (b : Bool) (e : String) (v : GoValue) :
    logger.String key s = ⟨key, .stringVal s⟩ ∧
    logger.Int key i = ⟨key, .int64Val i⟩ ∧
    logger.Int64 key i = ⟨key, .int64Val i⟩ ∧
    logger.Float64 key f = ⟨key, .float64Val f⟩ ∧
    logger.Bool key b = ⟨key, .boolVal b⟩ ∧
    logger.Error (some e) = ⟨"error", .errorVal e⟩ ∧
    logger.Error none = zap.Skip ∧
    logger.Any key v = ⟨key, .anyVal v⟩ ∧
    logger.Duration key f = ⟨key, .float64Val f⟩ :=
  ⟨rfl, rfl, rfl, rfl, rfl, rfl, rfl, rfl, rfl⟩

/-- C9: the Duration helper is exactly the Float64 helper — it produces a
plain float64-typed field, never the engine's duration-typed field, so the
configured duration encoder does not apply to it. -/
theorem duration_eq_float64 (key : String) (val : Float) :
    logger.Duration key val = logger.Float64 key val ∧
    (logger.Duration key val).value = .float64Val val ∧
    ∀ nanos : Int, logger.Duration key val ≠ zap.Duration key nanos := by
  refine ⟨rfl, rfl, fun nanos h => ?_⟩
  have hv := congrArg zap.Field.value h
  simp [logger.Duration, zap.Float64, zap.Duration] at hv

/-- C10: the empty output string is not rejected or special-cased by the
translation — like every string other than exactly "stdout" it is passed
verbatim as the single output path — so with a parseable level the
construction either succeeds or fails with an engine construction error,
never with a validation error. -/
theorem empty_output_verbatim (env : zap.Env) (cfg : logger.LogConfig)
    (t : zap.Level) (hout : cfg.OutputPath = "")
    (ht : zap.Level.unmarshalText cfg.Level = .ok t) :
    logger.translateOutput cfg.OutputPath = [""] ∧
    (∀ s, s ≠ "stdout" → logger.translateOutput s = [s]) ∧
    ((∃ L, logger.NewWithConfig env cfg = .ok L) ∨
     (∃ b, logger.NewWithConfig env cfg = .error (.buildError b))) := by
  refine ⟨by simp [hout, logger.translateOutput],
    fun s hs => by simp [logger.translateOutput, hs], ?_⟩
  rcases hB : zap.Config.Build env
      { level := t, development := false, encoding := cfg.Format,
        encoderConfig := logger.encoderConfig,
        outputPaths := logger.translateOutput cfg.OutputPath,
        errorOutputPaths := ["stderr"] } with e | z
  · exact Or.inr ⟨e, by simp only [logger.NewWithConfig, ht, hB]⟩
  · exact Or.inl ⟨⟨z⟩, by simp only [logger.NewWithConfig, ht, hB]⟩

/-- C10 witness: the theorem applied to an info-level configuration with the
empty output string in an environment in which no file path opens. -/
theorem empty_output_verbatim_witness :
    logger.translateOutput "" = [""] ∧
    (∀ s, s ≠ "stdout" → logger.translateOutput s = [s]) ∧
    ((∃ L, logger.NewWithConfig envNoneOpen
        { Level := "info", OutputPath := "", Format := "console" } = .ok L) ∨
     (∃ b, logger.NewWithConfig envNoneOpen
        { Level := "info", OutputPath := "", Format := "console" } =
        .error (.buildError b))) :=
  empty_output_verbatim envNoneOpen
    { Level := "info", OutputPath := "", Format := "console" }
    .InfoLevel rfl rfl

/-- C9 witness: the theorem applied to the key "elapsed" and the value 1.5. -/
theorem duration_eq_float64_witness :
    logger.Duration "elapsed" 1.5 = logger.Float64 "elapsed" 1.5 ∧
    (logger.Duration "elapsed" 1.5).value = .float64Val 1.5 ∧
    ∀ nanos : Int, logger.Duration "elapsed" 1.5 ≠ zap.Duration "elapsed" nanos :=
  duration_eq_float64 "elapsed" 1.5
